import Mathlib

/-!
Shallow embedding of the tool-mediated generation core of the RAG chatbot
backend (`backend/ai_generator.py` and `backend/search_tools.py`), together
with theorems settling the specification claims about it.

Conventions of the embedding:
* Python dictionaries that the code only reads by key become structures with
  `Option` fields (`dict.get(k)` is the field, `dict.get(k, d)` is
  `field.getD d`).
* Python truthiness tests on optional strings (`if s:`) become
  `pyTruthyStr`.
* Raising an exception becomes returning `Except.error`; a function that may
  raise returns `Except String α`, and code without a `try` block propagates
  the `error` value outward, exactly as unhandled exceptions propagate.
* The external Gemini client (`client.models.generate_content`) is a pure
  function from the submitted contents to a response, quantified over in the
  theorems; the run record (`GenResult`) keeps every submission made, every
  tool call dispatched, and the returned (or raised) value, so the theorems
  can speak about call counts and orderings.
-/

namespace RAG

/-- Python truthiness of an optional string: `None` and `""` are falsy. -/
def pyTruthyStr : Option String → Bool
  | none => false
  | some s => !s.isEmpty

/-- A `function_call` part payload produced by the engine: tool name and the
keyword arguments the engine requests, in order.  Argument values are kept as
opaque strings: the orchestrator only passes them through. -/
structure FunctionCall where
  name : String
  args : List (String × String)
deriving DecidableEq

/-- A `function_response` part payload sent back to the engine after a tool
execution: the tool name and the `{"result": ...}` text. -/
structure FunctionResponse where
  name : String
  result : String
deriving DecidableEq

/-- A Gemini content part: at most one of a text payload, a function-call
payload, or a function-response payload is populated. -/
structure GPart where
  text : Option String := none
  function_call : Option FunctionCall := none
  function_response : Option FunctionResponse := none
deriving DecidableEq

/-- One role-tagged turn of the contents list submitted to the engine
(`{"role": ..., "parts": [...]}`). -/
structure GContent where
  role : String
  parts : List GPart
deriving DecidableEq

/-- An engine response, projected to what the orchestrator reads:
`response.candidates[0].content.parts` and `response.text`. -/
structure GResponse where
  parts : List GPart
  text : String
deriving DecidableEq

/-- The external reasoning engine, abstracted as a pure function from the
submitted contents to the response (a mock script in the tests plays exactly
this role). -/
def Engine : Type := List GContent → GResponse

/-- The tool manager seen from the orchestrator: `execute_tool(name, **args)`.
An `Except.error` value models `execute_tool` raising an exception. -/
def ToolExec : Type := String → List (String × String) → Except String String

/-- A `{"role": "user", "parts": [{"text": s}]}` turn. -/
def userTextTurn (s : String) : GContent :=
  { role := "user", parts := [{ text := some s }] }

/-- A `{"role": "function", "parts": [{"function_response": ...}]}` turn
carrying one tool result. -/
def functionResponseTurn (name result : String) : GContent :=
  { role := "function", parts := [{ function_response := some ⟨name, result⟩ }] }

/-- The static system prompt `AIGenerator.SYSTEM_PROMPT`. -/
def SYSTEM_PROMPT : String :=
  " You are an AI assistant specialized in course materials and educational content with access to a comprehensive search tool for course information.\n\nSearch Tool Usage:\n- Use the search tool `search_course_content` **only** for questions about specific course content or detailed educational materials.\n- For queries about a course outline, use the `get_course_outline` tool. When you do, return the course title, link, and the number and title of each lesson.\n- **One search per query maximum**\n- Synthesize search results into accurate, fact-based responses\n- If search yields no results, state this clearly without offering alternatives\n\nResponse Protocol:\n- **General knowledge questions**: Answer using existing knowledge without searching\n- **Course-specific questions**: Search first, then answer\n- **No meta-commentary**:\n - Provide direct answers only — no reasoning process, search explanations, or question-type analysis\n - Do not mention \"based on the search results\"\n\n\nAll responses must be:\n1. **Brief, Concise and focused** - Get to the point quickly\n2. **Educational** - Maintain instructional value\n3. **Clear** - Use accessible language\n4. **Example-supported** - Include relevant examples when they aid understanding\nProvide only the direct answer to what was asked.\n"

/-- The fixed system instruction turn injected by `generate_response`. -/
def systemTurn : GContent := userTextTurn SYSTEM_PROMPT

/-- One engine invocation as recorded in a run: the contents submitted and the
`tools` entry of the decoding config (`none` when no `"tools"` key was set). -/
structure EngineCall where
  contents : List GContent
  toolsCfg : Option (List String)

/-- The observable outcome of one `generate_response` run: the returned text
(or the propagated exception), every engine invocation made, and every tool
call dispatched through the tool manager, in dispatch order. -/
structure GenResult where
  result : Except String String
  calls : List EngineCall
  dispatches : List FunctionCall

/-- The contents of the initial engine call built by `generate_response`:
optional conversation-history turn, the system prompt turn, then the user
query turn. -/
def initialContents (query : String) (conversation_history : Option String) :
    List GContent :=
  let history :=
    (if pyTruthyStr conversation_history then
      [userTextTurn (conversation_history.getD "")] else []) ++ [systemTurn]
  history ++ [userTextTurn query]

/-- `response.candidates[0].content.parts and
response.candidates[0].content.parts[0].function_call`: the function call of
the first part, `none` when the parts list is empty or its first part carries
no function call. -/
def firstPartFunctionCall (response : GResponse) : Option FunctionCall :=
  match response.parts with
  | [] => none
  | p :: _ => p.function_call

/-- The `for part in initial_parts` loop of `_handle_tool_execution`: for each
part carrying a function call, dispatch it through the tool manager and append
a function-response turn to the contents.  Returns the final contents (or the
exception a dispatch raised, which aborts the loop) together with the list of
dispatched calls in order. -/
def runToolCalls (tool_manager : ToolExec) :
    List GPart → List GContent → List FunctionCall →
    Except String (List GContent) × List FunctionCall
  | [], contents, dispatched => (.ok contents, dispatched)
  | part :: rest, contents, dispatched =>
    match part.function_call with
    | none => runToolCalls tool_manager rest contents dispatched
    | some fc =>
      match tool_manager fc.name fc.args with
      | .error e => (.error e, dispatched ++ [fc])
      | .ok tool_response =>
        runToolCalls tool_manager rest
          (contents ++ [functionResponseTurn fc.name tool_response])
          (dispatched ++ [fc])

/-- `AIGenerator._handle_tool_execution`: rebuilds the contents as
user-query turn, assistant turn holding the initial response's parts, then one
function-response turn per dispatched call; then makes the final engine call
(with no tools in its config) and returns its text.  An exception raised by a
dispatch propagates (there is no `try` block). -/
def handle_tool_execution (engine : Engine) (user_query : String)
    (initial_response : GResponse) (tool_manager : ToolExec) : GenResult :=
  let initial_parts := initial_response.parts
  let contents : List GContent :=
    [userTextTurn user_query, { role := "assistant", parts := initial_parts }]
  match runToolCalls tool_manager initial_parts contents [] with
  | (.error e, dispatched) =>
    { result := .error e, calls := [], dispatches := dispatched }
  | (.ok contents2, dispatched) =>
    let final_response := engine contents2
    { result := .ok final_response.text,
      calls := [{ contents := contents2, toolsCfg := none }],
      dispatches := dispatched }

/-- `AIGenerator.generate_response`: builds the initial contents, makes the
initial engine call, and hands over to `_handle_tool_execution` exactly when
the response's parts list is non-empty, its first part carries a function
call, and a tool manager was supplied; otherwise returns the response text.
`tools` enters only the decoding config of the initial call (`if tools:`,
empty list falsy). -/
def generate_response (engine : Engine) (query : String)
    (conversation_history : Option String) (tools : Option (List String))
    (tool_manager : Option ToolExec) : GenResult :=
  let cfgTools := match tools with
    | none => none
    | some ts => if ts.isEmpty then none else some ts
  let contents := initialContents query conversation_history
  let response := engine contents
  let firstCall : EngineCall := { contents := contents, toolsCfg := cfgTools }
  match firstPartFunctionCall response, tool_manager with
  | some _, some tm =>
    let r := handle_tool_execution engine query response tm
    { r with calls := firstCall :: r.calls }
  | _, _ =>
    { result := .ok response.text, calls := [firstCall], dispatches := [] }

/-- The spec's round cap `MAX_TOOL_ROUNDS`.  Modelled from the spec: the
constant appears in the spec only; the code of `generate_response` handles
tool calls in exactly one round (`_handle_tool_execution` does not loop), so
its effective round cap is 1. -/
def MAX_TOOL_ROUNDS : Nat := 1

/-!
Embedding of `backend/search_tools.py`.
-/

/-- The first function declaration of a tool definition
(`tool.get_tool_definition().function_declarations[0]`), projected to the
field `register_tool` reads.  `name` is `none` when the declaration carries no
name. -/
structure ToolFD where
  name : Option String
deriving DecidableEq

/-- A registered tool as the `ToolManager` sees it: its declaration and its
`execute(**kwargs)` method (which may raise, hence `Except`). -/
structure GTool where
  fd : ToolFD
  exec : List (String × String) → Except String String

/-- Insertion into a Python `dict` kept as an insertion-ordered association
list: an existing key is overwritten in place, a new key is appended. -/
def dictInsert (d : List (String × GTool)) (k : String) (v : GTool) :
    List (String × GTool) :=
  match d with
  | [] => [(k, v)]
  | (k', v') :: rest =>
    if k' = k then (k, v) :: rest else (k', v') :: dictInsert rest k v

/-- Key lookup in the association list standing for `self.tools`. -/
def dictLookup (d : List (String × GTool)) (k : String) : Option GTool :=
  match d with
  | [] => none
  | (k', v') :: rest => if k' = k then some v' else dictLookup rest k

/-- `ToolManager`: the registry `self.tools`, a name-keyed dict. -/
structure ToolManager where
  tools : List (String × GTool)

/-- `ToolManager.register_tool`: reads the name of the tool's first function
declaration, raises `ValueError` (`Except.error`) when the name is absent or
empty (`if not tool_name:`), and otherwise stores the tool under that name. -/
def ToolManager.register_tool (tm : ToolManager) (tool : GTool) :
    Except String ToolManager :=
  match tool.fd.name with
  | none => .error "Tool must have a 'name' in its definition"
  | some tool_name =>
    if tool_name = "" then
      .error "Tool must have a 'name' in its definition"
    else
      .ok { tools := dictInsert tm.tools tool_name tool }

/-- `ToolManager.execute_tool`: an unregistered name yields the textual
`Tool '<name>' not found` result (no exception); a registered tool's
`execute` runs with the supplied arguments, and whatever it raises
propagates. -/
def ToolManager.execute_tool (tm : ToolManager) (tool_name : String)
    (kwargs : List (String × String)) : Except String String :=
  match dictLookup tm.tools tool_name with
  | none => .ok ("Tool '" ++ tool_name ++ "' not found")
  | some tool => tool.exec kwargs

/-- Metadata of one search-result chunk as `_format_results` reads it:
`course_title`, `lesson_number`, `lesson_link`, each possibly absent. -/
structure ChunkMeta where
  course_title : Option String := none
  lesson_number : Option Int := none
  lesson_link : Option String := none
deriving DecidableEq

/-- Modelled from the spec: `vector_store.SearchResults` (the module is not
part of the analysed sources) — an ordered document list, a parallel metadata
list, parallel numeric distances, and the optional empty-result reason. -/
structure SearchResults where
  documents : List String
  metadata : List ChunkMeta
  distances : List Rat := []
  error : Option String := none

/-- Modelled from the spec: `SearchResults.empty(reason)`, the explicit
empty-result constructor carrying a human-readable reason. -/
def SearchResults.empty (reason : String) : SearchResults :=
  { documents := [], metadata := [], distances := [], error := some reason }

/-- One retained source entry `{"source": ..., "link": ...}`, tracked for the
UI. -/
structure Source where
  source : String
  link : Option String
deriving DecidableEq

/-- The body of the `for doc, meta in zip(...)` loop of
`CourseSearchTool._format_results`: extends the formatted-block list and the
source list with the entry for one `(document, metadata)` pair. -/
def formatPair (acc : List String × List Source) (dm : String × ChunkMeta) :
    List String × List Source :=
  let doc := dm.1
  let meta := dm.2
  let course_title := meta.course_title.getD "unknown"
  let header :=
    (match meta.lesson_number with
      | some n => "[" ++ course_title ++ " - Lesson " ++ toString n
      | none => "[" ++ course_title) ++ "]"
  let source_text :=
    match meta.lesson_number with
    | some n => course_title ++ " - Lesson " ++ toString n
    | none => course_title
  (acc.1 ++ [header ++ "\n" ++ doc],
   acc.2 ++ [{ source := source_text, link := meta.lesson_link }])

/-- `CourseSearchTool._format_results`, as a pure function: the formatted text
(blocks joined by a blank line) and the source list the call stores into
`self.last_sources`. -/
def format_results (results : SearchResults) : String × List Source :=
  let acc := (results.documents.zip results.metadata).foldl formatPair ([], [])
  (String.intercalate "\n\n" acc.1, acc.2)

/-- The mutable state of a `CourseSearchTool`: its retained
`self.last_sources`. -/
structure CourseSearchTool where
  last_sources : List Source
deriving DecidableEq

/-- `CourseSearchTool.execute`: runs the vector store's
`search(query, course_name, lesson_number)` (the store is abstracted as the
function `search`), formats the results, and overwrites `last_sources` with
the sources `_format_results` built.  Returns the formatted text and the
updated tool state. -/
def CourseSearchTool.execute
    (search : String → Option String → Option Int → SearchResults)
    (tool : CourseSearchTool) (query : String)
    (course_name : Option String) (lesson_number : Option Int) :
    String × CourseSearchTool :=
  let results := search query course_name lesson_number
  let fr := format_results results
  (fr.1, { tool with last_sources := fr.2 })

/-- One lesson entry of the parsed `lessons_json` list, as
`CourseOutlineTool.execute` reads it. -/
structure OutlineLesson where
  lesson_number : Option Int := none
  lesson_title : Option String := none
deriving DecidableEq

/-- A course-catalog metadata record (`metadatas[0]` of the catalog `get`).
Modelled from the spec for the JSON leg: the raw `lessons_json` string and
`json.loads` are collapsed into a parse outcome — `none` for an absent/empty
string, `Except.error` for `JSONDecodeError`, `Except.ok` for the parsed
lesson list. -/
structure CatalogMeta where
  title : Option String := none
  course_link : Option String := none
  lessons_json : Option (Except Unit (List OutlineLesson)) := none

/-- The Python sort key `lambda x: x.get('lesson_number', 0)`. -/
def lessonKey (lesson : OutlineLesson) : Int := lesson.lesson_number.getD 0

/-- `sorted(lessons, key=...)`: Python's stable ascending sort by the lesson
key, embedded as a stable insertion sort over the same key. -/
def sortLessons (lessons : List OutlineLesson) : List OutlineLesson :=
  List.insertionSort (fun a b => lessonKey a ≤ lessonKey b) lessons

/-- The lesson-line body of the rendering loop: `Some` line exactly when the
lesson has a lesson number and a truthy (non-empty) title
(`if lesson_num is not None and lesson_title:`). -/
def lessonLine (lesson : OutlineLesson) : Option String :=
  match lesson.lesson_number, lesson.lesson_title with
  | some n, some t =>
    if t.isEmpty then none else some ("  - Lesson " ++ toString n ++ ": " ++ t)
  | _, _ => none

/-- The tail of `CourseOutlineTool.execute` from the fetched catalog metadata
on: title/link defaults, the `lessons_json` guards, the stable sort, the
`Course:`/`Link:`/`Lessons:` header lines, and one line per qualifying
lesson. -/
def renderOutline (metadata : CatalogMeta) : String :=
  let course_title := metadata.title.getD "Unknown Course"
  let course_link := metadata.course_link.getD "Unknown Link"
  match metadata.lessons_json with
  | none => "No lessons found for course '" ++ course_title ++ "'."
  | some (.error _) => "Error parsing lesson data."
  | some (.ok lessons) =>
    if lessons.isEmpty then
      "No lessons listed for course '" ++ course_title ++ "'."
    else
      let sorted_lessons := sortLessons lessons
      let formatted :=
        ["Course: " ++ course_title, "Link: " ++ course_link, "Lessons:"] ++
          sorted_lessons.filterMap lessonLine
      String.intercalate "\n" formatted

/-- The outline tool's view of the vector store: `_resolve_course_name`
(`none` for an unresolved/falsy result) and the catalog `get` for the resolved
title (`Except.error` models the caught exception, `Except.ok none` a missing
`metadatas` payload). -/
structure OutlineStore where
  resolve_course_name : String → Option String
  catalog_get : String → Except Unit (Option CatalogMeta)

/-- `CourseOutlineTool.execute`: resolve the fuzzy course name, fetch the
catalog metadata (with the `try`/`except` message on an exception), then
render the outline via `renderOutline`. -/
def CourseOutlineTool.execute (store : OutlineStore) (course_name : String) :
    String :=
  match store.resolve_course_name course_name with
  | none => "Could not find a course named '" ++ course_name ++ "'."
  | some exact_course_title =>
    match store.catalog_get exact_course_title with
    | .error _ => "An error occurred while fetching course details."
    | .ok none =>
      "Could not retrieve metadata for course '" ++ exact_course_title ++ "'."
    | .ok (some metadata) => renderOutline metadata

/-- The lesson-body rendering that claim C8 describes, read literally: a
course title line, a link line, then one line per qualifying lesson — with no
`Lessons:` header line.  Stated from the claim's words, for comparison with
`renderOutline`. -/
def claimC8Render (metadata : CatalogMeta) (lessons : List OutlineLesson) :
    String :=
  String.intercalate "\n"
    (["Course: " ++ metadata.title.getD "Unknown Course",
      "Link: " ++ metadata.course_link.getD "Unknown Link"] ++
      (sortLessons lessons).filterMap lessonLine)

/-!
Concrete fixtures: mock engines, tool managers and stores used by the
counterexamples and witnesses, mirroring the scenarios of the repository's
unit tests.
-/

/-- First requested tool call of the two-round scenario. -/
def fcSearchAI : FunctionCall :=
  ⟨"search_course_content", [("query", "neural networks"), ("course_name", "AI")]⟩

/-- Second requested tool call of the two-round scenario. -/
def fcSearchDL : FunctionCall :=
  ⟨"search_course_content",
   [("query", "neural networks"), ("course_name", "Deep Learning")]⟩

/-- Engine response whose single part requests `fcSearchAI`. -/
def respToolAI : GResponse :=
  ⟨[{ function_call := some fcSearchAI }], "raw tool-call response 1"⟩

/-- Engine response whose single part requests `fcSearchDL`. -/
def respToolDL : GResponse :=
  ⟨[{ function_call := some fcSearchDL }], "raw tool-call response 2"⟩

/-- Tool-free final engine response. -/
def respFinalText : GResponse := ⟨[], "Comparison of neural networks..."⟩

/-- Engine script of the two-sequential-tool-rounds scenario, keyed on the
submission shape: the initial submission (system turn + query turn, two
turns) gets a tool-call response, the follow-up submission (query turn +
assistant turn + one function-response turn, three turns) gets a second
tool-call response, and any further submission would get the tool-free final
text. -/
def engineTwoRounds : Engine := fun contents =>
  if contents.length = 2 then respToolAI
  else if contents.length = 3 then respToolDL
  else respFinalText

/-- Engine that always requests `fcSearchAI`. -/
def engineOneToolCall : Engine := fun _ => respToolAI

/-- Engine whose response has a text first part and a function call only in a
later part. -/
def engineTextFirstPart : Engine := fun _ =>
  ⟨[{ text := some "hello" }, { function_call := some fcSearchAI }],
   "direct answer"⟩

/-- Tool manager stub that always succeeds. -/
def tmOk : ToolExec := fun _ _ => .ok "stubbed search results"

/-- Tool manager stub whose dispatch raises `Exception("Tool failed!")`. -/
def tmRaise : ToolExec := fun _ _ => .error "Tool failed!"

/-- A registered tool stub for the registry fixtures. -/
def dummySearchTool : GTool :=
  ⟨⟨some "search_course_content"⟩, fun _ => .ok "results"⟩

/-- A tool whose declaration lacks a name. -/
def unnamedTool : GTool := ⟨⟨none⟩, fun _ => .ok "x"⟩

/-- A tool declared with the name `get_course_outline`. -/
def namedOutlineTool : GTool := ⟨⟨some "get_course_outline"⟩, fun _ => .ok "outline"⟩

/-- The two-result search fixture of the formatting claim. -/
def resultsC6 : SearchResults :=
  { documents := ["doc1", "doc2"],
    metadata := [⟨some "course1", some 1, some "link1"⟩,
                 ⟨some "course2", some 2, some "link2"⟩],
    distances := [] }

/-- A vector store returning the empty result for every search. -/
def searchEmptyFix : String → Option String → Option Int → SearchResults :=
  fun _ _ _ => SearchResults.empty "No results found"

/-- A search tool still holding sources from a previous execution. -/
def toolWithOldSources : CourseSearchTool :=
  ⟨[{ source := "course1 - Lesson 1", link := some "link1" }]⟩

/-- Outline fixture: out-of-order lessons, one without a number, one without a
title. -/
def outlineLessons0 : List OutlineLesson :=
  [⟨some 2, some "Advanced"⟩, ⟨none, some "Orphan"⟩,
   ⟨some 1, some "Intro"⟩, ⟨some 3, none⟩]

/-- Catalog metadata for the outline witness. -/
def catalogMeta0 : CatalogMeta :=
  ⟨some "MCP Course", some "http://example.com/mcp", some (.ok outlineLessons0)⟩

/-- Outline store resolving every name to the witness course. -/
def outlineStore0 : OutlineStore :=
  ⟨fun _ => some "MCP Course", fun _ => .ok (some catalogMeta0)⟩

/-- Catalog metadata with a single one-lesson course, for the outline
counterexample. -/
def catalogMeta1 : CatalogMeta := ⟨some "T", some "L", some (.ok [⟨some 1, some "A"⟩])⟩

/-- Outline store for the counterexample course. -/
def outlineStore1 : OutlineStore :=
  ⟨fun _ => some "T", fun _ => .ok (some catalogMeta1)⟩

/-!
Helper lemmas shared by the claim theorems.
-/

/-- When the dispatch loop finishes without an exception, every turn of the
resulting contents either was already in the starting contents or is a
function-response turn. -/
theorem runToolCalls_ok_mem (tool_manager : ToolExec) :
    ∀ (parts : List GPart) (contents out : List GContent)
      (dispatched d : List FunctionCall),
      runToolCalls tool_manager parts contents dispatched = (.ok out, d) →
      ∀ c ∈ out, c ∈ contents ∨ c.role = "function" := by
  intro parts
  induction parts with
  | nil =>
    intro contents out dispatched d h c hc
    simp only [runToolCalls, Prod.mk.injEq, Except.ok.injEq] at h
    rw [← h.1] at hc
    exact Or.inl hc
  | cons part rest ih =>
    intro contents out dispatched d h c hc
    simp only [runToolCalls] at h
    split at h
    · exact ih contents out dispatched d h c hc
    · split at h
      · simp at h
      · rcases ih _ _ _ _ h c hc with hmem | hrole
        · rcases List.mem_append.mp hmem with hmem2 | hmem2
          · exact Or.inl hmem2
          · right
            rw [List.mem_singleton.mp hmem2]
            rfl
        · exact Or.inr hrole

/-- `_handle_tool_execution` makes at most one engine call. -/
theorem handleToolExecution_calls_le (engine : Engine) (user_query : String)
    (initial_response : GResponse) (tool_manager : ToolExec) :
    (handle_tool_execution engine user_query initial_response tool_manager).calls.length
      ≤ 1 := by
  simp only [handle_tool_execution]
  split <;> simp

/-- Looking up the key just inserted into the registry dict finds the inserted
tool. -/
theorem dictLookup_dictInsert_self (d : List (String × GTool)) (k : String)
    (v : GTool) : dictLookup (dictInsert d k v) k = some v := by
  induction d with
  | nil => simp [dictInsert, dictLookup]
  | cons kv rest ih =>
    obtain ⟨k', v'⟩ := kv
    by_cases hk : k' = k
    · simp [dictInsert, dictLookup, hk]
    · simp [dictInsert, dictLookup, hk, ih]

/-- The system instruction turn is part of the initial contents. -/
theorem systemTurn_mem_initialContents (query : String)
    (conversation_history : Option String) :
    systemTurn ∈ initialContents query conversation_history := by
  simp [initialContents]

/-- Taking one element of a cons keeps exactly its head. -/
theorem take_one_cons {α : Type} (a : α) (l : List α) : (a :: l).take 1 = [a] :=
  rfl

/-- Dropping one element of a cons leaves its tail. -/
theorem drop_one_cons {α : Type} (a : α) (l : List α) : (a :: l).drop 1 = l :=
  rfl

/-!
Claim theorems.
-/

/-- C3: for every engine behavior, query, history, tool list and tool
manager, `generate_response` invokes the reasoning engine at most
`MAX_TOOL_ROUNDS + 1` times. -/
theorem c3_round_bound (engine : Engine) (query : String)
    (conversation_history : Option String) (tools : Option (List String))
    (tool_manager : Option ToolExec) :
    (generate_response engine query conversation_history tools
      tool_manager).calls.length ≤ MAX_TOOL_ROUNDS + 1 := by
  simp only [generate_response]
  split
  · rename_i fc tm heq
    have hle := handleToolExecution_calls_le engine query
      (engine (initialContents query conversation_history)) tm
    simp only [List.length_cons, MAX_TOOL_ROUNDS]
    omega
  · simp [MAX_TOOL_ROUNDS]

/-- C5: dispatching a tool name that is not a key of the registry returns the
textual `Tool '<name>' not found` result for any supplied arguments, and
raises nothing. -/
theorem c5_unknown_tool (tm : ToolManager) (tool_name : String)
    (kwargs : List (String × String))
    (h : dictLookup tm.tools tool_name = none) :
    tm.execute_tool tool_name kwargs =
      .ok ("Tool '" ++ tool_name ++ "' not found") := by
  unfold ToolManager.execute_tool
  rw [h]

/-- Witness for C5: a registry holding only the search tool, asked for an
unregistered name with some arguments. -/
theorem c5_unknown_tool_witness :
    (ToolManager.mk [("search_course_content", dummySearchTool)]).execute_tool
      "get_course_outline" [("course_name", "MCP")] =
      .ok "Tool 'get_course_outline' not found" :=
  c5_unknown_tool ⟨[("search_course_content", dummySearchTool)]⟩
    "get_course_outline" [("course_name", "MCP")] rfl

/-- C6: on the two-result fixture, `_format_results` returns the expected
joined text and builds (and `execute` retains) exactly the two expected
sources. -/
theorem c6_format_results :
    format_results resultsC6 =
      ("[course1 - Lesson 1]\ndoc1\n\n[course2 - Lesson 2]\ndoc2",
       [{ source := "course1 - Lesson 1", link := some "link1" },
        { source := "course2 - Lesson 2", link := some "link2" }]) ∧
    (CourseSearchTool.execute (fun _ _ _ => resultsC6) ⟨[]⟩ "q" none
        none).2.last_sources =
      [{ source := "course1 - Lesson 1", link := some "link1" },
       { source := "course2 - Lesson 2", link := some "link2" }] := by
  constructor
  · rfl
  · rfl

/-- C7: whenever the vector store returns a result set with no documents,
`CourseSearchTool.execute` returns the empty string and overwrites the
retained source list with the empty list, whatever it held before. -/
theorem c7_empty_results
    (search : String → Option String → Option Int → SearchResults)
    (tool : CourseSearchTool) (query : String) (course_name : Option String)
    (lesson_number : Option Int)
    (h : (search query course_name lesson_number).documents = []) :
    (CourseSearchTool.execute search tool query course_name lesson_number).1 =
      "" ∧
    (CourseSearchTool.execute search tool query course_name
        lesson_number).2.last_sources = [] := by
  have hz : (search query course_name lesson_number).documents.zip
      (search query course_name lesson_number).metadata = [] := by
    rw [h]
    rfl
  simp only [CourseSearchTool.execute, format_results, hz, List.foldl_nil]
  exact ⟨rfl, trivial⟩

/-- Witness for C7: an empty-with-reason result set against a tool still
holding a source from a previous execution. -/
theorem c7_empty_results_witness :
    (CourseSearchTool.execute searchEmptyFix toolWithOldSources "anything" none
        none).1 = "" ∧
    (CourseSearchTool.execute searchEmptyFix toolWithOldSources "anything" none
        none).2.last_sources = [] :=
  c7_empty_results searchEmptyFix toolWithOldSources "anything" none none rfl

/-- C9: registering a tool whose declaration lacks a name (absent or empty)
raises the configuration `ValueError`; registering a tool with a non-empty
declared name stores it keyed by that name. -/
theorem c9_register_tool (tm : ToolManager) (tool : GTool) :
    ((tool.fd.name = none ∨ tool.fd.name = some "") →
      tm.register_tool tool =
        .error "Tool must have a 'name' in its definition") ∧
    (∀ n, tool.fd.name = some n → n ≠ "" →
      ∃ tm', tm.register_tool tool = .ok tm' ∧
        dictLookup tm'.tools n = some tool) := by
  constructor
  · intro h
    rcases h with h | h <;> simp [ToolManager.register_tool, h]
  · intro n hn hne
    refine ⟨⟨dictInsert tm.tools n tool⟩, ?_,
      dictLookup_dictInsert_self tm.tools n tool⟩
    simp [ToolManager.register_tool, hn, hne]

/-- Witness for C9: an unnamed tool is rejected; a tool named
`get_course_outline` is stored under that key. -/
theorem c9_register_tool_witness :
    (ToolManager.mk []).register_tool unnamedTool =
      .error "Tool must have a 'name' in its definition" ∧
    ∃ tm', (ToolManager.mk []).register_tool namedOutlineTool = .ok tm' ∧
      dictLookup tm'.tools "get_course_outline" = some namedOutlineTool :=
  ⟨(c9_register_tool ⟨[]⟩ unnamedTool).1 (Or.inl rfl),
   (c9_register_tool ⟨[]⟩ namedOutlineTool).2 "get_course_outline" rfl
     (by decide)⟩

/-- C10: when the first engine response has a non-empty parts list whose first
part carries no function call, `generate_response` returns the response text
directly, dispatches nothing, and calls the engine exactly once — whatever the
later parts carry. -/
theorem c10_first_part_gating (engine : Engine) (query : String)
    (conversation_history : Option String) (tools : Option (List String))
    (tool_manager : Option ToolExec) (p : GPart) (ps : List GPart)
    (h1 : (engine (initialContents query conversation_history)).parts = p :: ps)
    (h2 : p.function_call = none) :
    (generate_response engine query conversation_history tools
        tool_manager).result =
      .ok (engine (initialContents query conversation_history)).text ∧
    (generate_response engine query conversation_history tools
        tool_manager).dispatches = [] ∧
    (generate_response engine query conversation_history tools
        tool_manager).calls.length = 1 := by
  have hfc : firstPartFunctionCall
      (engine (initialContents query conversation_history)) = none := by
    simp [firstPartFunctionCall, h1, h2]
  cases tool_manager with
  | none => simp [generate_response, hfc]
  | some tm => simp [generate_response, hfc]

/-- Witness for C10: a response whose first part is text and whose second part
requests a tool call, with a tool manager supplied. -/
theorem c10_first_part_gating_witness :
    (generate_response engineTextFirstPart "q" none none (some tmOk)).result =
      .ok "direct answer" ∧
    (generate_response engineTextFirstPart "q" none none
        (some tmOk)).dispatches = [] ∧
    (generate_response engineTextFirstPart "q" none none
        (some tmOk)).calls.length = 1 :=
  c10_first_part_gating engineTextFirstPart "q" none none (some tmOk)
    { text := some "hello" } [{ function_call := some fcSearchAI }] rfl rfl

/-- C1, evaluated at the failing input: under the engine script whose first
response requests `fcSearchAI`, whose second response requests `fcSearchDL`,
and whose third response would be tool-free, `generate_response` makes only
two engine calls, dispatches only the first requested tool call, and returns
the second response's raw text — the second requested call is never
dispatched, contradicting the claimed three calls and two dispatches (which
the repository's own test `test_generate_response_two_sequential_tool_calls`
also asserts). -/
theorem c1_code_divergence :
    (generate_response engineTwoRounds "q" none
      (some ["search_course_content"]) (some tmOk)).calls.length = 2 ∧
    (generate_response engineTwoRounds "q" none
      (some ["search_course_content"]) (some tmOk)).dispatches = [fcSearchAI] ∧
    (generate_response engineTwoRounds "q" none
      (some ["search_course_content"]) (some tmOk)).result =
      .ok "raw tool-call response 2" :=
  ⟨rfl, rfl, rfl⟩

/-- C2, evaluated at the failing input: when the dispatched tool call raises,
`generate_response` propagates the exception (the run's result is the raised
error, not any returned string) after exactly one engine call and one
dispatch; the claimed fixed string
"An error occurred while executing the tool." is never produced, contradicting
the claim and the repository's own test
`test_generate_response_tool_failure`. -/
theorem c2_code_divergence :
    (generate_response engineOneToolCall "q" none
      (some ["search_course_content"]) (some tmRaise)).result =
      .error "Tool failed!" ∧
    (generate_response engineOneToolCall "q" none
      (some ["search_course_content"]) (some tmRaise)).calls.length = 1 ∧
    (generate_response engineOneToolCall "q" none
      (some ["search_course_content"]) (some tmRaise)).dispatches =
      [fcSearchAI] :=
  ⟨rfl, rfl, rfl⟩

/-- Counterexample to C4: in a run with a tool round, the second engine
submission does not contain the fixed system instruction turn. -/
theorem c4_counterexample :
    (generate_response engineTwoRounds "q" none none (some tmOk)).calls.length
      = 2 ∧
    systemTurn ∉
      ((generate_response engineTwoRounds "q" none none
        (some tmOk)).calls.getD 1 ⟨[], none⟩).contents :=
  ⟨rfl, by decide⟩

/-- C4 as amended: the initial submission contains the fixed system
instruction turn, and (for any query other than the prompt text itself) no
later submission does — the follow-up contents are only the user query turn,
the engine's tool-call turn, and the function-response turns. -/
theorem c4_system_turn_rounds (engine : Engine) (query : String)
    (conversation_history : Option String) (tools : Option (List String))
    (tool_manager : Option ToolExec) (h : query ≠ SYSTEM_PROMPT) :
    (∀ c ∈ (generate_response engine query conversation_history tools
        tool_manager).calls.take 1, systemTurn ∈ c.contents) ∧
    (∀ c ∈ (generate_response engine query conversation_history tools
        tool_manager).calls.drop 1, systemTurn ∉ c.contents) := by
  simp only [generate_response]
  split
  · rename_i fc tm heq
    refine ⟨?_, ?_⟩
    · intro c hc
      rw [take_one_cons, List.mem_singleton] at hc
      rw [hc]
      exact systemTurn_mem_initialContents query conversation_history
    · intro c hc
      rw [drop_one_cons] at hc
      revert hc
      simp only [handle_tool_execution]
      split
      · intro hc
        simp at hc
      · rename_i contents2 dispatched hrun
        intro hc
        simp only [List.mem_singleton] at hc
        rw [hc]
        intro habs
        rcases runToolCalls_ok_mem tm
            (engine (initialContents query conversation_history)).parts
            [userTextTurn query,
             { role := "assistant",
               parts := (engine (initialContents query conversation_history)).parts }]
            contents2 [] dispatched hrun systemTurn habs with hin | hrole
        · simp only [List.mem_cons, List.not_mem_nil, or_false] at hin
          rcases hin with hin | hin
          · have hq : SYSTEM_PROMPT = query := by
              simpa [systemTurn, userTextTurn] using hin
            exact h hq.symm
          · simp [systemTurn, userTextTurn] at hin
        · simp [systemTurn, userTextTurn] at hrole
  · refine ⟨?_, ?_⟩
    · intro c hc
      rw [take_one_cons, List.mem_singleton] at hc
      rw [hc]
      exact systemTurn_mem_initialContents query conversation_history
    · intro c hc
      rw [drop_one_cons] at hc
      simp at hc

/-- Witness for the amended C4: the two-round engine script with a plain
query. -/
theorem c4_system_turn_rounds_witness :
    (∀ c ∈ (generate_response engineTwoRounds "q2" none none
        (some tmOk)).calls.take 1, systemTurn ∈ c.contents) ∧
    (∀ c ∈ (generate_response engineTwoRounds "q2" none none
        (some tmOk)).calls.drop 1, systemTurn ∉ c.contents) :=
  c4_system_turn_rounds engineTwoRounds "q2" none none (some tmOk) (by decide)

/-- Counterexample to C8: on a resolved one-lesson course, the code renders a
`Lessons:` header line between the link line and the lesson lines, so the
output is not title line, link line, then the lesson lines. -/
theorem c8_counterexample :
    CourseOutlineTool.execute outlineStore1 "T" =
      "Course: T\nLink: L\nLessons:\n  - Lesson 1: A" ∧
    CourseOutlineTool.execute outlineStore1 "T" ≠
      claimC8Render catalogMeta1 [⟨some 1, some "A"⟩] :=
  ⟨by decide, by decide⟩

/-- C8 as amended: for every resolved course whose lesson list parses to a
non-empty sequence, the output is the course title line, the link line, a
`Lessons:` header line, then one line per lesson having both a number and a
non-empty title, taken from an ascending-by-lesson-key stable rearrangement
of the parsed list; lessons missing a number or a title contribute no line. -/
theorem c8_outline_rendering (store : OutlineStore)
    (course_name exact_title : String) (metadata : CatalogMeta)
    (lessons : List OutlineLesson)
    (h1 : store.resolve_course_name course_name = some exact_title)
    (h2 : store.catalog_get exact_title = .ok (some metadata))
    (h3 : metadata.lessons_json = some (.ok lessons))
    (h4 : lessons ≠ []) :
    ∃ sorted_lessons, lessons.Perm sorted_lessons ∧
      (sorted_lessons.map lessonKey).Sorted (· ≤ ·) ∧
      CourseOutlineTool.execute store course_name =
        String.intercalate "\n"
          (["Course: " ++ metadata.title.getD "Unknown Course",
            "Link: " ++ metadata.course_link.getD "Unknown Link",
            "Lessons:"] ++ sorted_lessons.filterMap lessonLine) := by
  refine ⟨sortLessons lessons,
    (List.perm_insertionSort (fun a b => lessonKey a ≤ lessonKey b)
      lessons).symm, ?_, ?_⟩
  · haveI : IsTotal OutlineLesson (fun a b => lessonKey a ≤ lessonKey b) :=
      ⟨fun a b => le_total _ _⟩
    haveI : IsTrans OutlineLesson (fun a b => lessonKey a ≤ lessonKey b) :=
      ⟨fun _ _ _ hab hbc => le_trans hab hbc⟩
    have hs := List.sorted_insertionSort
      (fun a b => lessonKey a ≤ lessonKey b) lessons
    rw [List.Sorted, List.pairwise_map]
    exact hs
  · have hne : lessons.isEmpty = false := by
      cases lessons with
      | nil => exact absurd rfl h4
      | cons a l => rfl
    simp [CourseOutlineTool.execute, h1, h2, renderOutline, h3, hne,
      sortLessons]

/-- Witness for the amended C8: the four-lesson fixture (out of order, one
lesson without a number, one without a title). -/
theorem c8_outline_rendering_witness :
    ∃ sorted_lessons, outlineLessons0.Perm sorted_lessons ∧
      (sorted_lessons.map lessonKey).Sorted (· ≤ ·) ∧
      CourseOutlineTool.execute outlineStore0 "MCP" =
        String.intercalate "\n"
          (["Course: " ++ catalogMeta0.title.getD "Unknown Course",
            "Link: " ++ catalogMeta0.course_link.getD "Unknown Link",
            "Lessons:"] ++ sorted_lessons.filterMap lessonLine) :=
  c8_outline_rendering outlineStore0 "MCP" "MCP Course" catalogMeta0
    outlineLessons0 rfl rfl rfl (by decide)

end RAG
